import Mathlib

/-! Shallow embedding overview.
Shallow embedding of the LEARNIFY test-taking frontend:
the `TestModal` test-session controller
(`frontend/src/components/ui/TestModal.tsx`) and the axios response
interceptor of the REST client (`frontend/src/services/api.ts`).

Conventions of the embedding:
* JS numbers holding millisecond epochs, counts and indices are `Nat`
  (the code never produces negative values on these paths: the one
  subtraction, `Date.now() - startTime`, is guarded by monotone clocks,
  and navigation guards prevent a negative index).
* The answer map `{ [questionId: string]: string }` is an association
  list `List (String × Ans)`; a JS object cannot hold a duplicate key,
  and the only writer is the spread update
  `{...prev, [questionId.toString()]: answer}`, embedded as
  update-in-place-or-append (`setAnswer`).
* `async` handlers are embedded as pure functions taking the network
  outcome and the clock reading as extra arguments and returning the
  final component state (plus, for submit, the request that was sent,
  `none` when no network call was issued).
-/

namespace Learnify

/-- Option labels: the fixed closed set `'A' | 'B' | 'C'` of
`handleAnswerSelect` in TestModal.tsx. -/
inductive Ans where
  | A
  | B
  | C
deriving DecidableEq, Repr

/-- `type TestScreen = 'start' | 'test' | 'results'` (TestModal.tsx). -/
inductive Screen where
  | start
  | test
  | results
deriving DecidableEq, Repr

/-- `status: 'generating' | 'ready' | 'error'` of `DocumentTest`
(api.ts). -/
inductive TestStatus where
  | generating
  | ready
  | error
deriving DecidableEq, Repr

/-- `TestQuestion` (api.ts): id, text, three option texts, correct
label, explanation. -/
structure TestQuestion where
  id : Nat
  question : String
  optionA : String
  optionB : String
  optionC : String
  correct_answer : Ans
  explanation : String
deriving DecidableEq, Repr

/-- `DocumentTest` (api.ts), restricted to the fields the controller
reads: id, questions, status. -/
structure DocumentTest where
  id : String
  questions : List TestQuestion
  status : TestStatus
deriving DecidableEq, Repr

/-- `TestAttempt` (api.ts), restricted to the fields the controller
stores and displays; the float `score` and the per-question detail are
never inspected by the claims. -/
structure TestAttempt where
  id : String
  correct_count : Nat
  incorrect_count : Nat
  passed : Bool
  time_taken_seconds : Option Nat
deriving DecidableEq, Repr

/-- The local state of one `TestModal` instance: the `useState` cells
declared at the top of the component. -/
structure TestModalState where
  currentScreen : Screen
  test : Option DocumentTest
  isGenerating : Bool
  generateError : Option String
  currentQuestionIndex : Nat
  answers : List (String × Ans)
  startTime : Option Nat
  isSubmitting : Bool
  testAttempt : Option TestAttempt
  elapsedSeconds : Nat
deriving DecidableEq, Repr

/-- Lookup `answers[key]` on the answer object. -/
def getAnswer (m : List (String × Ans)) (k : String) : Option Ans :=
  (m.find? (fun p => p.1 == k)).map Prod.snd

/-- The JS spread update `{...prev, [k]: v}` on an object: replace the
value at an existing key in place, otherwise append the new key at the
end (JS object key order). -/
def setAnswer (m : List (String × Ans)) (k : String) (v : Ans) :
    List (String × Ans) :=
  match m with
  | [] => [(k, v)]
  | p :: rest =>
      if p.1 == k then (k, v) :: rest else p :: setAnswer rest k v

/-- A backend error payload (`error.response.data`): the optional
fields the frontend may read.  The server may also send a `detail`
field; it is carried here so the embedding can talk about it. -/
structure ErrorResponse where
  error : Option String
  message : Option String
  detail : Option String
deriving DecidableEq, Repr

/-- An axios failure: either an HTTP error response carrying a data
payload (`error.response` present) or a network failure with no
response. -/
inductive ApiFailure where
  | withResponse (data : ErrorResponse)
  | noResponse
deriving DecidableEq, Repr

/-- The outcome of an awaited REST call. -/
inductive ApiResult (α : Type) where
  | ok (v : α)
  | err (e : ApiFailure)
deriving DecidableEq, Repr

/-- JS `a || b` on an optional string: `undefined` and the empty
string are falsy. -/
def jsOrStr (a : Option String) (b : String) : String :=
  match a with
  | some s => if s == "" then b else s
  | none => b

/-- The message built by the `catch` of `handleGenerateTest`:
`error.response?.data?.error || error.response?.data?.message ||
'Failed to generate test. Please try again.'`. -/
def generateErrorMessage : ApiFailure → String
  | .withResponse d =>
      jsOrStr d.error
        (jsOrStr d.message "Failed to generate test. Please try again.")
  | .noResponse => "Failed to generate test. Please try again."

/-- The message shown by the `catch` of `handleSubmitTest`:
`alert('Failed to submit test. Please try again.')` — a fixed string,
whatever the failure carries. -/
def submitErrorAlertMessage (_e : ApiFailure) : String :=
  "Failed to submit test. Please try again."

/-- `handleGenerateTest` (TestModal.tsx lines 80–104): set
`isGenerating`, clear `generateError`, await `generateTest`; on
success store the test, move to the test screen, record the start
instant, clear answers, reset the index; on failure store the
normalized message; finally clear `isGenerating`. -/
def handleGenerateTest (st : TestModalState)
    (result : ApiResult DocumentTest) (now : Nat) : TestModalState :=
  let st1 := { st with isGenerating := true, generateError := none }
  match result with
  | .ok t =>
      { st1 with
          test := some t
          currentScreen := Screen.test
          startTime := some now
          answers := []
          currentQuestionIndex := 0
          isGenerating := false }
  | .err e =>
      { st1 with
          generateError := some (generateErrorMessage e)
          isGenerating := false }

/-- `handleAnswerSelect` (TestModal.tsx lines 107–112):
`setAnswers(prev => ({...prev, [questionId.toString()]: answer}))`. -/
def handleAnswerSelect (st : TestModalState) (questionId : Nat)
    (answer : Ans) : TestModalState :=
  { st with answers := setAnswer st.answers (toString questionId) answer }

/-- `handlePreviousQuestion` (TestModal.tsx lines 115–119). -/
def handlePreviousQuestion (st : TestModalState) : TestModalState :=
  if st.currentQuestionIndex > 0 then
    { st with currentQuestionIndex := st.currentQuestionIndex - 1 }
  else st

/-- `handleNextQuestion` (TestModal.tsx lines 121–125). -/
def handleNextQuestion (st : TestModalState) : TestModalState :=
  match st.test with
  | some t =>
      if st.currentQuestionIndex < t.questions.length - 1 then
        { st with currentQuestionIndex := st.currentQuestionIndex + 1 }
      else st
  | none => st

/-- `test.questions.filter(q => !answers[q.id.toString()]).length`
(TestModal.tsx lines 131–134); the stored labels are never the empty
string, so JS falsiness is exactly absence. -/
def unansweredCount (t : DocumentTest) (answers : List (String × Ans)) :
    Nat :=
  (t.questions.filter
    (fun q => (getAnswer answers (toString q.id)).isNone)).length

/-- The body sent by `apiService.submitTest`. -/
structure SubmitRequest where
  testId : String
  answers : List (String × Ans)
  timeTaken : Option Nat
deriving DecidableEq, Repr

/-- `handleSubmitTest` (TestModal.tsx lines 128–169).  The two
`window.confirm` dialogs are the booleans `confirmIncomplete` and
`confirmFinal` (each read only when the code reaches that dialog);
`result` is the awaited outcome of `apiService.submitTest` and `now`
the `Date.now()` reading at submission.  Returns the final component
state and the request sent (`none` when the function returned before
calling the REST client). -/
def handleSubmitTest (st : TestModalState)
    (confirmIncomplete confirmFinal : Bool)
    (result : ApiResult TestAttempt) (now : Nat) :
    TestModalState × Option SubmitRequest :=
  match st.test with
  | none => (st, none)
  | some t =>
      let cnt := unansweredCount t st.answers
      if cnt > 0 ∧ confirmIncomplete = false then (st, none)
      else if confirmFinal = false then (st, none)
      else
        let timeTaken := st.startTime.map (fun s => (now - s) / 1000)
        let req : SubmitRequest :=
          { testId := t.id, answers := st.answers, timeTaken := timeTaken }
        let st1 := { st with isSubmitting := true }
        match result with
        | .ok attempt =>
            ({ st1 with
                testAttempt := some attempt
                currentScreen := Screen.results
                isSubmitting := false }, some req)
        | .err _ =>
            ({ st1 with isSubmitting := false }, some req)

/-! Section: The axios response interceptor (api.ts lines 166–198)

A replayed request re-enters the interceptor with `_retry = true`, so
the handling of a request splits into the `_retry = true` stage (which
never retries again) and the `_retry = false` stage (which, on a 401,
may refresh and replay once, the replay being handled by the first
stage). -/

/-- An axios response as the interceptor sees it: fulfilled, or an
error whose `error.response?.status` is the given optional status
(`none` when there was no response at all). -/
inductive Resp where
  | ok
  | err (status : Option Nat)
deriving DecidableEq, Repr

/-- How a request settles after the interceptor is done with it. -/
inductive FinalOutcome where
  | fulfilled
  | rejectedOriginal
  | rejectedRefresh
deriving DecidableEq, Repr

/-- The interceptor on a request whose `_retry` flag is already set:
every error, 401 included, falls through to `Promise.reject(error)`. -/
def dispatchRetried (r : Resp) : FinalOutcome :=
  match r with
  | .ok => FinalOutcome.fulfilled
  | .err _ => FinalOutcome.rejectedOriginal

/-- The interceptor on a fresh request (`_retry` unset).  `resp1` is
the response to the original send; `refreshToken` is
`getRefreshToken()`; `refreshOk` tells whether the refresh POST
succeeded; `resp2` is the response to the replayed request, which is
handled by `dispatchRetried` since the replay carries `_retry = true`.
Returns the settlement and how many times the original request was
replayed. -/
def dispatchFirst (resp1 resp2 : Resp) (refreshToken : Option String)
    (refreshOk : Bool) : FinalOutcome × Nat :=
  match resp1 with
  | .ok => (FinalOutcome.fulfilled, 0)
  | .err status =>
      if status = some 401 then
        match refreshToken with
        | some _ =>
            if refreshOk then (dispatchRetried resp2, 1)
            else (FinalOutcome.rejectedRefresh, 0)
        | none => (FinalOutcome.rejectedOriginal, 0)
      else (FinalOutcome.rejectedOriginal, 0)

/-! Section: Concrete sample data for witnesses and counterexamples -/

/-- A fresh component state: the initial values of all `useState`
cells in `TestModal`. -/
def blankState : TestModalState :=
  { currentScreen := Screen.start
    test := none
    isGenerating := false
    generateError := none
    currentQuestionIndex := 0
    answers := []
    startTime := none
    isSubmitting := false
    testAttempt := none
    elapsedSeconds := 0 }

def sampleQ1 : TestQuestion :=
  { id := 1, question := "Q1", optionA := "a1", optionB := "b1"
    optionC := "c1", correct_answer := Ans.A, explanation := "e1" }

def sampleQ2 : TestQuestion :=
  { id := 2, question := "Q2", optionA := "a2", optionB := "b2"
    optionC := "c2", correct_answer := Ans.B, explanation := "e2" }

def sampleQ3 : TestQuestion :=
  { id := 3, question := "Q3", optionA := "a3", optionB := "b3"
    optionC := "c3", correct_answer := Ans.C, explanation := "e3" }

/-- A ready three-question test. -/
def readyTest : DocumentTest :=
  { id := "test-1", questions := [sampleQ1, sampleQ2, sampleQ3]
    status := TestStatus.ready }

/-- A generation result whose status is `error`, as `DocumentTest`
allows. -/
def errorStatusTest : DocumentTest :=
  { id := "test-err", questions := [sampleQ1, sampleQ2, sampleQ3]
    status := TestStatus.error }

/-- An in-progress session on `readyTest` with one question answered. -/
def inProgressState : TestModalState :=
  { blankState with
      currentScreen := Screen.test
      test := some readyTest
      startTime := some 5000
      answers := [("1", Ans.B)] }

/-- An in-progress session on `readyTest` with every question
answered. -/
def fullyAnsweredState : TestModalState :=
  { blankState with
      currentScreen := Screen.test
      test := some readyTest
      startTime := some 5000
      answers := [("1", Ans.B), ("2", Ans.A), ("3", Ans.C)] }

def sampleAttempt : TestAttempt :=
  { id := "attempt-1", correct_count := 2, incorrect_count := 1
    passed := true, time_taken_seconds := some 7 }

/-! Section: Helper lemmas on the answer object -/

theorem setAnswer_self_idem (m : List (String × Ans)) (k : String)
    (v : Ans) : setAnswer (setAnswer m k v) k v = setAnswer m k v := by
  induction m with
  | nil => simp [setAnswer]
  | cons p rest ih =>
      by_cases h : p.1 == k
      · simp [setAnswer, h]
      · simp [setAnswer, h, ih]

theorem getAnswer_setAnswer_self (m : List (String × Ans)) (k : String)
    (v : Ans) : getAnswer (setAnswer m k v) k = some v := by
  induction m with
  | nil => simp [setAnswer, getAnswer, List.find?]
  | cons p rest ih =>
      by_cases h : p.1 == k
      · simp [setAnswer, h, getAnswer, List.find?]
      · simp only [setAnswer, h, if_neg]
        simpa [getAnswer, List.find?, h] using ih

theorem getAnswer_eq_none_iff (m : List (String × Ans)) (k : String) :
    getAnswer m k = none ↔ k ∉ m.map Prod.fst := by
  simp only [getAnswer, Option.map_eq_none', List.find?_eq_none,
    List.mem_map]
  constructor
  · rintro h ⟨p, hp, hk⟩
    exact h p hp (by simp [hk])
  · intro h p hp hbeq
    exact h ⟨p, hp, by simpa using hbeq⟩

/-! Section: Theorems for the claims -/

/-- Claim C7: `selectAnswer` (`handleAnswerSelect`) is idempotent and
overwriting: applying it twice with the same label equals applying it
once; applying it afterwards with a different label makes that label
the stored entry for the question; and it changes nothing but the
AnswerSet — screen, current index, start instant, test, attempt,
submission and generation flags are untouched (no state-machine
transition). -/
theorem selectAnswer_idempotent_overwrite (st : TestModalState)
    (questionId : Nat) (a b : Ans) :
    handleAnswerSelect (handleAnswerSelect st questionId a) questionId a =
      handleAnswerSelect st questionId a ∧
    getAnswer
      (handleAnswerSelect (handleAnswerSelect st questionId a)
        questionId b).answers (toString questionId) = some b ∧
    (handleAnswerSelect st questionId a).currentScreen =
      st.currentScreen ∧
    (handleAnswerSelect st questionId a).currentQuestionIndex =
      st.currentQuestionIndex ∧
    (handleAnswerSelect st questionId a).startTime = st.startTime ∧
    (handleAnswerSelect st questionId a).test = st.test ∧
    (handleAnswerSelect st questionId a).testAttempt = st.testAttempt ∧
    (handleAnswerSelect st questionId a).isSubmitting =
      st.isSubmitting ∧
    (handleAnswerSelect st questionId a).isGenerating =
      st.isGenerating := by
  refine ⟨?_, ?_, rfl, rfl, rfl, rfl, rfl, rfl, rfl⟩
  · simp [handleAnswerSelect, setAnswer_self_idem]
  · simp [handleAnswerSelect, getAnswer_setAnswer_self]

/-- Claim C6: Navigation keeps the current index inside `[0, N−1]`:
starting from a valid index, `next()` and `previous()` land on a valid
index; `next()` at index `N−1` and `previous()` at index 0 are no-ops
returning the state unchanged; and neither touches any other session
state (answers, timer, screen, test). -/
theorem navigation_bounds (st : TestModalState) (t : DocumentTest)
    (ht : st.test = some t)
    (hidx : st.currentQuestionIndex < t.questions.length) :
    (handleNextQuestion st).currentQuestionIndex <
      t.questions.length ∧
    (handlePreviousQuestion st).currentQuestionIndex <
      t.questions.length ∧
    (st.currentQuestionIndex = t.questions.length - 1 →
      handleNextQuestion st = st) ∧
    (st.currentQuestionIndex = 0 → handlePreviousQuestion st = st) ∧
    (handleNextQuestion st).answers = st.answers ∧
    (handleNextQuestion st).startTime = st.startTime ∧
    (handleNextQuestion st).currentScreen = st.currentScreen ∧
    (handleNextQuestion st).test = st.test ∧
    (handlePreviousQuestion st).answers = st.answers ∧
    (handlePreviousQuestion st).startTime = st.startTime ∧
    (handlePreviousQuestion st).currentScreen = st.currentScreen ∧
    (handlePreviousQuestion st).test = st.test := by
  have hN : handleNextQuestion st =
      if st.currentQuestionIndex < t.questions.length - 1 then
        { st with currentQuestionIndex := st.currentQuestionIndex + 1 }
      else st := by
    unfold handleNextQuestion; rw [ht]
  have hP : handlePreviousQuestion st =
      if st.currentQuestionIndex > 0 then
        { st with currentQuestionIndex := st.currentQuestionIndex - 1 }
      else st := rfl
  rw [hN, hP]
  refine ⟨?_, ?_, ?_, ?_, ?_, ?_, ?_, ?_, ?_, ?_, ?_, ?_⟩
  · split_ifs with h
    · show st.currentQuestionIndex + 1 < t.questions.length
      omega
    · exact hidx
  · split_ifs with h
    · show st.currentQuestionIndex - 1 < t.questions.length
      omega
    · exact hidx
  · intro h
    split_ifs with hc
    · exfalso; omega
    · rfl
  · intro h
    split_ifs with hc
    · exfalso; omega
    · rfl
  · split_ifs <;> rfl
  · split_ifs <;> rfl
  · split_ifs <;> rfl
  · split_ifs <;> rfl
  · split_ifs <;> rfl
  · split_ifs <;> rfl
  · split_ifs <;> rfl
  · split_ifs <;> rfl

/-- Witness for the navigation theorem: a concrete session at index 0
of a 3-question test. -/
theorem navigation_bounds_witness :
    (handleNextQuestion inProgressState).currentQuestionIndex <
      readyTest.questions.length ∧
    (handlePreviousQuestion inProgressState).currentQuestionIndex <
      readyTest.questions.length ∧
    (inProgressState.currentQuestionIndex =
        readyTest.questions.length - 1 →
      handleNextQuestion inProgressState = inProgressState) ∧
    (inProgressState.currentQuestionIndex = 0 →
      handlePreviousQuestion inProgressState = inProgressState) ∧
    (handleNextQuestion inProgressState).answers =
      inProgressState.answers ∧
    (handleNextQuestion inProgressState).startTime =
      inProgressState.startTime ∧
    (handleNextQuestion inProgressState).currentScreen =
      inProgressState.currentScreen ∧
    (handleNextQuestion inProgressState).test = inProgressState.test ∧
    (handlePreviousQuestion inProgressState).answers =
      inProgressState.answers ∧
    (handlePreviousQuestion inProgressState).startTime =
      inProgressState.startTime ∧
    (handlePreviousQuestion inProgressState).currentScreen =
      inProgressState.currentScreen ∧
    (handlePreviousQuestion inProgressState).test =
      inProgressState.test :=
  navigation_bounds inProgressState readyTest rfl (by decide)

/-- Claim C2, counterexample: The claim requires the Start(loading) →
InProgress transition to be guarded by `status = "ready"`, but
`handleGenerateTest` installs the test and enters the test screen for
any successfully returned `DocumentTest`: here one whose status is
`error` still reaches the test screen with the session reset. -/
theorem generate_ready_guard_counterexample :
    errorStatusTest.status ≠ TestStatus.ready ∧
    (handleGenerateTest blankState (ApiResult.ok errorStatusTest)
        9000).currentScreen = Screen.test ∧
    (handleGenerateTest blankState (ApiResult.ok errorStatusTest)
        9000).test = some errorStatusTest ∧
    (handleGenerateTest blankState (ApiResult.ok errorStatusTest)
        9000).startTime = some 9000 := by
  refine ⟨by decide, rfl, rfl, rfl⟩

/-- Claim C2, amended: When `generateTest` succeeds, the controller
moves to the test screen unconditionally — no guard on the returned
status — and on that transition resets the AnswerSet to empty, records
the session start instant, sets the current index to 0, clears the
error banner and the loading flag. -/
theorem generate_success_transition (st : TestModalState)
    (t : DocumentTest) (now : Nat) :
    handleGenerateTest st (ApiResult.ok t) now =
      { st with
          test := some t
          currentScreen := Screen.test
          startTime := some now
          answers := []
          currentQuestionIndex := 0
          isGenerating := false
          generateError := none } := rfl

/-- Claim C3, counterexample: The claim's precedence (server `error`
field, else server `detail` field, else generic fallback) fails twice
on the code: a failed generate whose payload carries only a `detail`
field is shown the generic fallback, not the detail (the code reads
`data.message`, never `data.detail`); and a failed submit is always
shown the fixed generic alert even when the server sent an `error`
field. -/
theorem error_precedence_counterexample :
    generateErrorMessage
        (ApiFailure.withResponse
          { error := none, message := none
            detail := some "Document has no extractable text" }) =
      "Failed to generate test. Please try again." ∧
    "Failed to generate test. Please try again." ≠
      "Document has no extractable text" ∧
    submitErrorAlertMessage
        (ApiFailure.withResponse
          { error := some "Server overloaded", message := none
            detail := none }) =
      "Failed to submit test. Please try again." ∧
    "Failed to submit test. Please try again." ≠
      "Server overloaded" := by
  refine ⟨rfl, by decide, rfl, by decide⟩

/-- Claim C3, amended: Failed generate calls are normalized with the
precedence: server `error` field if present and non-empty, else server
`message` field if present and non-empty, else the generic fallback
(also used when the failure carries no response at all); failed submit
calls always show one fixed generic message, whatever the server
sent. -/
theorem error_message_precedence (d : ErrorResponse) (e : ApiFailure)
    (s1 s2 : String) :
    (d.error = some s1 → s1 ≠ "" →
      generateErrorMessage (ApiFailure.withResponse d) = s1) ∧
    ((d.error = none ∨ d.error = some "") → d.message = some s2 →
      s2 ≠ "" →
      generateErrorMessage (ApiFailure.withResponse d) = s2) ∧
    ((d.error = none ∨ d.error = some "") →
      (d.message = none ∨ d.message = some "") →
      generateErrorMessage (ApiFailure.withResponse d) =
        "Failed to generate test. Please try again.") ∧
    generateErrorMessage ApiFailure.noResponse =
      "Failed to generate test. Please try again." ∧
    submitErrorAlertMessage e =
      "Failed to submit test. Please try again." := by
  refine ⟨?_, ?_, ?_, rfl, rfl⟩
  · intro he hne
    simp [generateErrorMessage, jsOrStr, he, hne]
  · intro he hm hne
    rcases he with he | he <;>
      simp [generateErrorMessage, jsOrStr, he, hm, hne]
  · intro he hm
    rcases he with he | he <;> rcases hm with hm | hm <;>
      simp [generateErrorMessage, jsOrStr, he, hm]

/-- Witness for the message-precedence theorem at concrete payloads:
an `error` field wins, a `message` field is used when `error` is
absent, and the fallbacks apply. -/
theorem error_message_precedence_witness :
    (({ error := some "boom", message := some "m"
        detail := none } : ErrorResponse).error = some "boom" →
      "boom" ≠ "" →
      generateErrorMessage
          (ApiFailure.withResponse
            { error := some "boom", message := some "m"
              detail := none }) = "boom") ∧
    ((({ error := some "boom", message := some "m"
         detail := none } : ErrorResponse).error = none ∨
      ({ error := some "boom", message := some "m"
         detail := none } : ErrorResponse).error = some "") →
      ({ error := some "boom", message := some "m"
         detail := none } : ErrorResponse).message = some "m" →
      "m" ≠ "" →
      generateErrorMessage
          (ApiFailure.withResponse
            { error := some "boom", message := some "m"
              detail := none }) = "m") ∧
    ((({ error := some "boom", message := some "m"
         detail := none } : ErrorResponse).error = none ∨
      ({ error := some "boom", message := some "m"
         detail := none } : ErrorResponse).error = some "") →
      (({ error := some "boom", message := some "m"
          detail := none } : ErrorResponse).message = none ∨
       ({ error := some "boom", message := some "m"
          detail := none } : ErrorResponse).message = some "") →
      generateErrorMessage
          (ApiFailure.withResponse
            { error := some "boom", message := some "m"
              detail := none }) =
        "Failed to generate test. Please try again.") ∧
    generateErrorMessage ApiFailure.noResponse =
      "Failed to generate test. Please try again." ∧
    submitErrorAlertMessage ApiFailure.noResponse =
      "Failed to submit test. Please try again." :=
  error_message_precedence
    { error := some "boom", message := some "m", detail := none }
    ApiFailure.noResponse "boom" "m"

/-! Section: Submission: confirmation gate, failure atomicity, time taken -/

/-- On a session with a test, once the conditional incomplete-answers
confirmation is satisfied and the final confirmation accepted,
`handleSubmitTest` reaches the REST call: its result decomposes into
the sent request and the state after the response. -/
theorem handleSubmitTest_accepted_snd (st : TestModalState)
    (t : DocumentTest) (cI cF : Bool) (r : ApiResult TestAttempt)
    (now : Nat) (ht : st.test = some t)
    (hI : unansweredCount t st.answers = 0 ∨ cI = true)
    (hF : cF = true) :
    (handleSubmitTest st cI cF r now).2 =
      some { testId := t.id, answers := st.answers
             timeTaken := st.startTime.map (fun s => (now - s) / 1000) } := by
  have h1 : ¬(unansweredCount t st.answers > 0 ∧ cI = false) := by
    rintro ⟨hgt, hci⟩
    rcases hI with h | h
    · omega
    · rw [h] at hci; exact Bool.true_eq_false.mp hci
  have h2 : ¬(cF = false) := by rw [hF]; simp
  cases r <;>
    · simp only [handleSubmitTest, ht]
      rw [if_neg h1, if_neg h2]

/-- Claim C1: The submit request reaches the backend only after both
confirmations: if the unanswered count is positive and the
incomplete-answers confirmation is declined, or if the unconditional
final confirmation is declined, the handler returns with the state
exactly unchanged and no request sent; and whenever a request was
sent, the incomplete-answers confirmation had been accepted where
required and the final confirmation had been accepted. -/
theorem submit_confirmation_gate (st : TestModalState)
    (t : DocumentTest) (cI cF : Bool) (r : ApiResult TestAttempt)
    (now : Nat) (ht : st.test = some t) :
    ((unansweredCount t st.answers > 0 ∧ cI = false) →
      handleSubmitTest st cI cF r now = (st, none)) ∧
    (cF = false → handleSubmitTest st cI cF r now = (st, none)) ∧
    ((handleSubmitTest st cI cF r now).2 ≠ none →
      (unansweredCount t st.answers > 0 → cI = true) ∧ cF = true) := by
  refine ⟨?_, ?_, ?_⟩
  · intro h1
    simp only [handleSubmitTest, ht]
    rw [if_pos h1]
  · intro h2
    simp only [handleSubmitTest, ht]
    by_cases h1 : unansweredCount t st.answers > 0 ∧ cI = false
    · rw [if_pos h1]
    · rw [if_neg h1, if_pos h2]
  · intro hsent
    by_cases h1 : unansweredCount t st.answers > 0 ∧ cI = false
    · exfalso
      apply hsent
      simp only [handleSubmitTest, ht]
      rw [if_pos h1]
    · by_cases h2 : cF = false
      · exfalso
        apply hsent
        simp only [handleSubmitTest, ht]
        rw [if_neg h1, if_pos h2]
      · refine ⟨?_, ?_⟩
        · intro hcnt
          rcases Bool.eq_false_or_eq_true cI with hci | hci
          · exact hci
          · exact absurd ⟨hcnt, hci⟩ h1
        · rcases Bool.eq_false_or_eq_true cF with hcf | hcf
          · exact hcf
          · exact absurd hcf h2

/-- Witness for the confirmation gate: a concrete session with two
unanswered questions and both dialogs declined. -/
theorem submit_confirmation_gate_witness :
    ((unansweredCount readyTest inProgressState.answers > 0 ∧
        false = false) →
      handleSubmitTest inProgressState false false
          (ApiResult.ok sampleAttempt) 12000 = (inProgressState, none)) ∧
    (false = false →
      handleSubmitTest inProgressState false false
          (ApiResult.ok sampleAttempt) 12000 = (inProgressState, none)) ∧
    ((handleSubmitTest inProgressState false false
          (ApiResult.ok sampleAttempt) 12000).2 ≠ none →
      (unansweredCount readyTest inProgressState.answers > 0 →
        false = true) ∧ false = true) :=
  submit_confirmation_gate inProgressState readyTest false false
    (ApiResult.ok sampleAttempt) 12000 rfl

/-- Claim C5: A confirmed submit that fails leaves the controller in the
test screen with the AnswerSet exactly as before the submit began, the
index and start instant untouched, and the submitting flag cleared so
a retry is permitted. -/
theorem submit_failure_preserves_session (st : TestModalState)
    (t : DocumentTest) (cI cF : Bool) (e : ApiFailure) (now : Nat)
    (ht : st.test = some t) (hscreen : st.currentScreen = Screen.test)
    (hI : unansweredCount t st.answers = 0 ∨ cI = true)
    (hF : cF = true) :
    handleSubmitTest st cI cF (ApiResult.err e) now =
      ({ st with isSubmitting := false },
        some { testId := t.id, answers := st.answers
               timeTaken :=
                 st.startTime.map (fun s => (now - s) / 1000) }) ∧
    (handleSubmitTest st cI cF (ApiResult.err e) now).1.currentScreen =
      Screen.test ∧
    (handleSubmitTest st cI cF (ApiResult.err e) now).1.answers =
      st.answers ∧
    (handleSubmitTest st cI cF
        (ApiResult.err e) now).1.currentQuestionIndex =
      st.currentQuestionIndex ∧
    (handleSubmitTest st cI cF (ApiResult.err e) now).1.startTime =
      st.startTime ∧
    (handleSubmitTest st cI cF (ApiResult.err e) now).1.isSubmitting =
      false := by
  have h1 : ¬(unansweredCount t st.answers > 0 ∧ cI = false) := by
    rintro ⟨hgt, hci⟩
    rcases hI with h | h
    · omega
    · rw [h] at hci; exact Bool.true_eq_false.mp hci
  have h2 : ¬(cF = false) := by rw [hF]; simp
  have key : handleSubmitTest st cI cF (ApiResult.err e) now =
      ({ st with isSubmitting := false },
        some { testId := t.id, answers := st.answers
               timeTaken :=
                 st.startTime.map (fun s => (now - s) / 1000) }) := by
    simp only [handleSubmitTest, ht]
    rw [if_neg h1, if_neg h2]
  rw [key]
  exact ⟨rfl, hscreen, rfl, rfl, rfl, rfl⟩

/-- Witness for failure atomicity: a fully answered session whose
submit fails on a network error keeps all three answers, stays on the
test screen, and has time taken (12000 − 5000) ms = 7 s in the request
it sent. -/
theorem submit_failure_preserves_session_witness :
    handleSubmitTest fullyAnsweredState true true
        (ApiResult.err ApiFailure.noResponse) 12000 =
      ({ fullyAnsweredState with isSubmitting := false },
        some { testId := readyTest.id
               answers := fullyAnsweredState.answers
               timeTaken :=
                 fullyAnsweredState.startTime.map
                   (fun s => (12000 - s) / 1000) }) ∧
    (handleSubmitTest fullyAnsweredState true true
        (ApiResult.err ApiFailure.noResponse) 12000).1.currentScreen =
      Screen.test ∧
    (handleSubmitTest fullyAnsweredState true true
        (ApiResult.err ApiFailure.noResponse) 12000).1.answers =
      fullyAnsweredState.answers ∧
    (handleSubmitTest fullyAnsweredState true true
        (ApiResult.err
          ApiFailure.noResponse) 12000).1.currentQuestionIndex =
      fullyAnsweredState.currentQuestionIndex ∧
    (handleSubmitTest fullyAnsweredState true true
        (ApiResult.err ApiFailure.noResponse) 12000).1.startTime =
      fullyAnsweredState.startTime ∧
    (handleSubmitTest fullyAnsweredState true true
        (ApiResult.err ApiFailure.noResponse) 12000).1.isSubmitting =
      false :=
  submit_failure_preserves_session fullyAnsweredState readyTest true
    true ApiFailure.noResponse 12000 rfl rfl (Or.inl (by decide)) rfl

/-- Claim C8: The time taken carried by the request of a confirmed
submit is the submission instant minus the recorded session-start
instant, converted from milliseconds to whole seconds — and it does
not depend on the elapsed-seconds display cell, however often the
display timer recomputed it. -/
theorem submit_time_taken (st : TestModalState) (t : DocumentTest)
    (cI cF : Bool) (r : ApiResult TestAttempt) (s now e1 e2 : Nat)
    (ht : st.test = some t) (hs : st.startTime = some s)
    (hI : unansweredCount t st.answers = 0 ∨ cI = true)
    (hF : cF = true) :
    (handleSubmitTest st cI cF r now).2.map SubmitRequest.timeTaken =
      some (some ((now - s) / 1000)) ∧
    (handleSubmitTest { st with elapsedSeconds := e1 } cI cF
        r now).2 =
      (handleSubmitTest { st with elapsedSeconds := e2 } cI cF
        r now).2 := by
  constructor
  · rw [handleSubmitTest_accepted_snd st t cI cF r now ht hI hF]
    rw [hs]
    rfl
  · rw [handleSubmitTest_accepted_snd { st with elapsedSeconds := e1 }
        t cI cF r now ht hI hF,
      handleSubmitTest_accepted_snd { st with elapsedSeconds := e2 }
        t cI cF r now ht hI hF]

/-- Witness for the time-taken theorem: start instant 5000 ms,
submission instant 12000 ms, time taken 7 s, display cell irrelevant. -/
theorem submit_time_taken_witness :
    (handleSubmitTest fullyAnsweredState true true
          (ApiResult.ok sampleAttempt) 12000).2.map
        SubmitRequest.timeTaken =
      some (some ((12000 - 5000) / 1000)) ∧
    (handleSubmitTest { fullyAnsweredState with elapsedSeconds := 3 }
        true true (ApiResult.ok sampleAttempt) 12000).2 =
      (handleSubmitTest { fullyAnsweredState with elapsedSeconds := 99 }
        true true (ApiResult.ok sampleAttempt) 12000).2 :=
  submit_time_taken fullyAnsweredState readyTest true true
    (ApiResult.ok sampleAttempt) 5000 12000 3 99 rfl rfl
    (Or.inl (by decide)) rfl

/-! Section: Unanswered-count refinement -/

/-- Claim C9: For a test whose question-id keys are distinct and an
AnswerSet with distinct keys, all of them keys of the test's
questions, the unanswered count computed at submit time by filtering
the questions without an entry equals `N − |AnswerSet|`. -/
theorem unanswered_count_eq (t : DocumentTest)
    (m : List (String × Ans))
    (hids : (t.questions.map (fun q => toString q.id)).Nodup)
    (hkeys : (m.map Prod.fst).Nodup)
    (hsub : ∀ k ∈ m.map Prod.fst,
      k ∈ t.questions.map (fun q => toString q.id)) :
    unansweredCount t m = t.questions.length - m.length := by
  classical
  have hpred : ∀ q ∈ t.questions,
      (getAnswer m (toString q.id)).isNone =
        !(decide (toString q.id ∈ m.map Prod.fst)) := by
    intro q _
    by_cases hq : toString q.id ∈ m.map Prod.fst
    · have hne : ¬(getAnswer m (toString q.id) = none) := by
        rw [getAnswer_eq_none_iff]
        simpa using hq
      rcases Option.ne_none_iff_exists'.mp hne with ⟨v, hv⟩
      rw [hv]
      simp [hq]
    · have hno : getAnswer m (toString q.id) = none :=
        (getAnswer_eq_none_iff m (toString q.id)).mpr hq
      rw [hno]
      simp [hq]
  have hfilter : unansweredCount t m =
      (t.questions.filter
        (fun q => !(decide (toString q.id ∈ m.map Prod.fst)))).length := by
    unfold unansweredCount
    congr 1
    exact List.filter_congr hpred
  have hsplit :
      (t.questions.filter
        (fun q => !(decide (toString q.id ∈ m.map Prod.fst)))).length =
      t.questions.length -
        (t.questions.filter
          (fun q => decide (toString q.id ∈ m.map Prod.fst))).length := by
    have h :=
      List.length_eq_length_filter_add
        (l := t.questions)
        (fun q => decide (toString q.id ∈ m.map Prod.fst))
    omega
  have hmapfilter :
      List.filter (fun s => decide (s ∈ m.map Prod.fst))
          (t.questions.map (fun q => toString q.id)) =
        List.map (fun q => toString q.id)
          (t.questions.filter
            (fun q => decide (toString q.id ∈ m.map Prod.fst))) := by
    exact List.filter_map (fun q => toString q.id) t.questions
  have hperm :
      (List.filter (fun s => decide (s ∈ m.map Prod.fst))
          (t.questions.map (fun q => toString q.id))).Perm
        (m.map Prod.fst) := by
    apply List.perm_of_nodup_nodup_toFinset_eq
    · exact hids.filter _
    · exact hkeys
    · ext x
      simp only [List.mem_toFinset, List.mem_filter,
        decide_eq_true_eq]
      constructor
      · rintro ⟨_, hx⟩
        exact hx
      · intro hx
        exact ⟨hsub x hx, hx⟩
  have hcount :
      (t.questions.filter
        (fun q => decide (toString q.id ∈ m.map Prod.fst))).length =
      m.length := by
    have h1 := congrArg List.length hmapfilter
    rw [List.length_map] at h1
    have h2 := hperm.length_eq
    rw [h1] at h2
    rw [h2, List.length_map]
  rw [hfilter, hsplit, hcount]

/-- Witness for the unanswered count: `readyTest` has 3 questions,
two are answered, and the filter counts 1 = 3 − 2. -/
theorem unanswered_count_eq_witness :
    unansweredCount readyTest [("1", Ans.B), ("3", Ans.C)] =
      readyTest.questions.length -
        ([("1", Ans.B), ("3", Ans.C)] : List (String × Ans)).length :=
  unanswered_count_eq readyTest [("1", Ans.B), ("3", Ans.C)]
    (by decide) (by decide) (by decide)

/-! Section: The 401 refresh-and-retry interceptor -/

/-- Claim C10, counterexample: The claim says every request failing
with 401 is refreshed and replayed exactly once; but at these two
concrete inputs the replay count is zero: when no refresh token is
stored the interceptor falls through to `Promise.reject` with no
replay, and when a token is stored but the refresh call fails the
interceptor clears the tokens and rejects with no replay. -/
theorem refresh_retry_counterexample :
    (dispatchFirst (Resp.err (some 401)) (Resp.err (some 401)) none
        true).2 = 0 ∧
    (dispatchFirst (Resp.err (some 401)) (Resp.err (some 401)) none
        true).1 = FinalOutcome.rejectedOriginal ∧
    (dispatchFirst (Resp.err (some 401)) (Resp.err (some 401))
        (some "tok") false).2 = 0 ∧
    (dispatchFirst (Resp.err (some 401)) (Resp.err (some 401))
        (some "tok") false).1 = FinalOutcome.rejectedRefresh := by
  exact ⟨rfl, rfl, rfl, rfl⟩

/-- Claim C10, amended: For every request that fails with a 401
response and has not already been retried: if a refresh token is
stored and the refresh succeeds, the original request is replayed
exactly once; if no refresh token is stored the request is rejected
with no replay, and likewise if a token is stored but the refresh
fails; a request is never replayed more than once and never
recursively: a request that has already been retried once is not
retried again even if the replay also fails with 401. -/
theorem refresh_retry_at_most_once (r1 r2 : Resp)
    (tok : Option String) (rok : Bool) :
    (dispatchFirst r1 r2 tok rok).2 ≤ 1 ∧
    (r1 = Resp.err (some 401) → tok.isSome = true → rok = true →
      (dispatchFirst r1 r2 tok rok).2 = 1) ∧
    (r1 = Resp.err (some 401) → tok = none →
      dispatchFirst r1 r2 tok rok =
        (FinalOutcome.rejectedOriginal, 0)) ∧
    (r1 = Resp.err (some 401) → tok.isSome = true → rok = false →
      dispatchFirst r1 r2 tok rok =
        (FinalOutcome.rejectedRefresh, 0)) ∧
    dispatchRetried (Resp.err (some 401)) =
      FinalOutcome.rejectedOriginal := by
  refine ⟨?_, ?_, ?_, ?_, rfl⟩
  · cases r1 with
    | ok => exact Nat.zero_le 1
    | err status =>
        simp only [dispatchFirst]
        by_cases h : status = some 401
        · rw [if_pos h]
          cases tok with
          | none => exact Nat.zero_le 1
          | some v =>
              cases rok with
              | false => simp
              | true => simp
        · rw [if_neg h]
          exact Nat.zero_le 1
  · intro h1 h2 h3
    subst h1
    cases tok with
    | none => simp at h2
    | some v =>
        subst h3
        simp [dispatchFirst]
  · intro h1 h2
    subst h1
    subst h2
    simp [dispatchFirst]
  · intro h1 h2 h3
    subst h1
    cases tok with
    | none => simp at h2
    | some v =>
        subst h3
        simp [dispatchFirst]

/-- Witness for the retry bound: a 401 whose replay also returns 401,
with a stored refresh token and a successful refresh — one replay,
then rejection, no further retry. -/
theorem refresh_retry_at_most_once_witness :
    (dispatchFirst (Resp.err (some 401)) (Resp.err (some 401))
        (some "tok") true).2 ≤ 1 ∧
    (Resp.err (some 401) = Resp.err (some 401) →
      (some "tok" : Option String).isSome = true → true = true →
      (dispatchFirst (Resp.err (some 401)) (Resp.err (some 401))
          (some "tok") true).2 = 1) ∧
    (Resp.err (some 401) = Resp.err (some 401) →
      (some "tok" : Option String) = none →
      dispatchFirst (Resp.err (some 401)) (Resp.err (some 401))
          (some "tok") true =
        (FinalOutcome.rejectedOriginal, 0)) ∧
    (Resp.err (some 401) = Resp.err (some 401) →
      (some "tok" : Option String).isSome = true → true = false →
      dispatchFirst (Resp.err (some 401)) (Resp.err (some 401))
          (some "tok") true =
        (FinalOutcome.rejectedRefresh, 0)) ∧
    dispatchRetried (Resp.err (some 401)) =
      FinalOutcome.rejectedOriginal :=
  refresh_retry_at_most_once (Resp.err (some 401))
    (Resp.err (some 401)) (some "tok") true

end Learnify
